import Mathlib

set_option maxRecDepth 40000

/-
  Shallow embedding of the escape-room controller in src/app.py.

  The controller's mutable module-level state (game_state, input snapshots,
  timer fields, relay states) becomes the structure `St`; every state-mutating
  operation becomes a function `St → ... → St × List Act`, where the
  returned trace of `Act`s records, in program order, the lock
  acquisition/release, every event published to the Broadcaster, every relay
  hardware write and every audio-cue publish.  The monotonic clock is an
  explicit rational parameter `now`.  The Broadcaster's per-subscriber
  bounded queues (queue.Queue(maxsize=200) with put_nowait and
  `except queue.Full: pass`) are modelled as lists with a capped append.
-/

/-- Association-list read, modelling Python `dict.get(key)`. -/
def aget {α : Type} : List (String × α) → String → Option α
  | [], _ => none
  | (k, v) :: rest, key => if k = key then some v else aget rest key

/-- Association-list write, modelling Python `dict[key] = value`. -/
def aset {α : Type} : List (String × α) → String → α → List (String × α)
  | [], key, v => [(key, v)]
  | (k, w) :: rest, key, v =>
      if k = key then (key, v) :: rest else (k, w) :: aset rest key v

/-- VALID_GAME_STATES from app.py. -/
def VALID_GAME_STATES : List String := ["idle", "scene_1", "scene_2", "end_game"]

/-- RELAY_PATTERNS from app.py: per-phase complete relay on/off assignment. -/
def RELAY_PATTERNS : List (String × List (String × Bool)) :=
  [("idle",     [("relay_1", false), ("relay_2", false), ("relay_3", false), ("relay_4", false)]),
   ("scene_1",  [("relay_1", true),  ("relay_2", false), ("relay_3", true),  ("relay_4", false)]),
   ("scene_2",  [("relay_1", true),  ("relay_2", true),  ("relay_3", false), ("relay_4", true)]),
   ("end_game", [("relay_1", false), ("relay_2", false), ("relay_3", true),  ("relay_4", true)])]

/-- The relay names registered in `relay_devices` by init_relays. -/
def relayNames : List String := ["relay_1", "relay_2", "relay_3", "relay_4"]

/-- INPUTS from app.py, restricted to the fields the rules use:
label → role.  (Pin numbers and debounce times are hardware configuration
consumed by the out-of-scope GPIO layer.) -/
def INPUTS : List (String × String) :=
  [("pushbutton 1", "pb1"), ("pushbutton 2", "pb2"),
   ("toggle 1", "t1"), ("toggle 2", "t2"), ("reed switch", "rs1")]

/-- get_label_by_role from app.py: first input label whose role matches. -/
def get_label_by_role (role : String) : Option String :=
  match INPUTS.find? (fun p => decide (p.2 = role)) with
  | some p => some p.1
  | none => none

/-- The controller's shared mutable state (the module-level globals of
app.py that the claims concern). -/
structure St where
  game_state : String
  current_inputs : List (String × String)
  previous_inputs : List (String × String)
  timer_running : Bool
  timer_started_at : Option ℚ
  timer_elapsed_base : ℚ
  current_relays : List (String × Bool)
  deriving DecidableEq, Repr

/-- Events published to the Broadcaster (the dicts of app.py, with their
type tag and the payload fields the claims depend on; the wall-clock `ts`
field is diagnostic metadata and omitted). -/
inductive Ev : Type
  | full_state (reason : String) (gs : String) (inputs : List (String × String))
      (running : Bool) (elapsed : ℚ)
  | game_state (gs : String) (reason : String)
  | timer (running : Bool) (elapsed : ℚ) (reason : String)
  | relays (state : String) (pattern : List (String × Bool)) (reason : String)
  | relay (name : String) (isOn : Bool) (reason : String)
  | input (label : String) (state : String)
  deriving DecidableEq, Repr

/-- The type tag of an event (the "type" field of the published dict). -/
def evTag : Ev → String
  | Ev.full_state .. => "full_state"
  | Ev.game_state .. => "game_state"
  | Ev.timer .. => "timer"
  | Ev.relays .. => "relays"
  | Ev.relay .. => "relay"
  | Ev.input .. => "input"

/-- One observable step of an operation, in program order: lock
acquisition/release, a Broadcaster publish, a relay hardware write
(dev.on()/dev.off()), or an audio-cue publish over MQTT. -/
inductive Act : Type
  | acquire
  | release
  | pub (e : Ev)
  | relayWrite (name : String) (isOn : Bool)
  | audio (cmd : String) (file : String)
  deriving DecidableEq, Repr

/-- The events an action trace publishes, in order. -/
def eventsOf (tr : List Act) : List Ev :=
  tr.filterMap fun a =>
    match a with
    | Act.pub e => some e
    | _ => none

/-- Helper walking a trace with the lock-held flag. -/
def insideLockAux : List Act → Bool → List Act
  | [], _ => []
  | Act.acquire :: rest, _ => insideLockAux rest true
  | Act.release :: rest, _ => insideLockAux rest false
  | a :: rest, held =>
      if held then a :: insideLockAux rest held else insideLockAux rest held

/-- The actions of a trace performed while the exclusivity lock is held. -/
def insideLock (tr : List Act) : List Act := insideLockAux tr false

/-- get_timer_elapsed from app.py: `elapsed_base` when not running or no
start timestamp; else `elapsed_base + (now - started_at)`. -/
def get_timer_elapsed (st : St) (now : ℚ) : ℚ :=
  if st.timer_running = false ∨ st.timer_started_at = none then
    st.timer_elapsed_base
  else
    st.timer_elapsed_base + (now - st.timer_started_at.getD 0)

/-- The per-relay loop of apply_relay_pattern: for each (relay, on) in the
pattern, skip unknown relays, write the hardware state and record it in
current_relays. -/
def writeRelays (st : St) : List (String × Bool) → St × List Act
  | [] => (st, [])
  | (name, isOn) :: rest =>
      if name ∈ relayNames then
        let st2 : St := { st with current_relays := aset st.current_relays name isOn }
        let r := writeRelays st2 rest
        (r.1, Act.relayWrite name isOn :: r.2)
      else writeRelays st rest

/-- apply_relay_pattern from app.py: look up the phase pattern (return
silently when absent or empty), write every relay, then publish one
`relays` event carrying the full pattern and the reason. -/
def apply_relay_pattern (st : St) (state_name reason : String) : St × List Act :=
  match aget RELAY_PATTERNS state_name with
  | none => (st, [])
  | some pattern =>
      if pattern.isEmpty then (st, [])
      else
        let r := writeRelays st pattern
        (r.1, r.2 ++ [Act.pub (Ev.relays state_name pattern reason)])

/-- The scene_1 timer guard of set_game_state: start the timer only when it
is not running, has no start timestamp, and has accumulated nothing. -/
def scene1_timer_step (st : St) (now : ℚ) : St :=
  if st.timer_running = false ∧ st.timer_started_at = none ∧ st.timer_elapsed_base = 0 then
    { st with timer_started_at := some now, timer_running := true }
  else st

/-- set_game_state from app.py.  Invalid phase names return unchanged with
an empty trace.  Under the lock: assign the phase; entering idle publishes
the panic audio cue, resets the timer and applies the idle relay pattern
(which publishes a relays event) while still holding the lock; entering
scene_1 publishes the state1 background cue and runs the guarded timer
start; scene_2/end_game switch the background cue.  After releasing the
lock: apply the relay pattern for the new phase, then publish the
game_state, timer and full_state events. -/
def set_game_state (st : St) (now : ℚ) (new_state reason : String) : St × List Act :=
  if new_state ∈ VALID_GAME_STATES then
    let st1 : St := { st with game_state := new_state }
    let inner : St × List Act :=
      if new_state = "idle" then
        let stA : St := { st1 with timer_running := false, timer_started_at := none,
                                   timer_elapsed_base := 0 }
        let rp := apply_relay_pattern stA "idle" "entered_idle"
        (rp.1, Act.audio "panic" "" :: rp.2)
      else if new_state = "scene_1" then
        (scene1_timer_step st1 now, [Act.audio "bg_start" "state1.mp3"])
      else if new_state = "scene_2" then
        (st1, [Act.audio "bg_switch" "state2.mp3"])
      else if new_state = "end_game" then
        (st1, [Act.audio "bg_switch" "state3.mp3"])
      else (st1, [])
    let rp2 := apply_relay_pattern inner.1 new_state ("state:" ++ reason)
    (rp2.1,
      Act.acquire ::
        (inner.2 ++ Act.release :: (rp2.2 ++
          [Act.pub (Ev.game_state new_state reason),
           Act.pub (Ev.timer rp2.1.timer_running (get_timer_elapsed rp2.1 now) reason),
           Act.pub (Ev.full_state ("state_change:" ++ reason) rp2.1.game_state
             rp2.1.current_inputs rp2.1.timer_running (get_timer_elapsed rp2.1 now))])))
  else (st, [])

/-- stop_timer from app.py: under the lock, return unchanged when not
running; else freeze elapsed into elapsed_base and clear the running
state; after releasing the lock, publish a timer event. -/
def stop_timer (st : St) (now : ℚ) (reason : String) : St × List Act :=
  if st.timer_running = false then (st, [Act.acquire, Act.release])
  else
    let st2 : St := { st with timer_elapsed_base := get_timer_elapsed st now,
                              timer_running := false, timer_started_at := none }
    (st2, [Act.acquire, Act.release,
           Act.pub (Ev.timer false (get_timer_elapsed st2 now) reason)])

/-- set_input_state from app.py: under the lock, previous[label] becomes
the old current[label] (or the new state on the very first reading), then
current[label] becomes the new state; after releasing the lock, publish an
input event. -/
def set_input_state (st : St) (label : String) (is_active : Bool) : St × List Act :=
  let state := if is_active then "ACTIVE" else "INACTIVE"
  let prev := aget st.current_inputs label
  let st2 : St :=
    { st with
      previous_inputs := aset st.previous_inputs label
        (match prev with | some p => p | none => state),
      current_inputs := aset st.current_inputs label state }
  (st2, [Act.acquire, Act.release, Act.pub (Ev.input label state)])

/-- The is_active helper of evaluate_rules_on_change: the label exists and
its snapshot value is "ACTIVE" (None labels read as not active). -/
def is_active (snapshot : List (String × String)) : Option String → Bool
  | none => false
  | some lab => decide (aget snapshot lab = some "ACTIVE")

/-- The was_inactive helper of evaluate_rules_on_change: the label exists
and its previous-snapshot value is "INACTIVE". -/
def was_inactive (prev_snapshot : List (String × String)) : Option String → Bool
  | none => false
  | some lab => decide (aget prev_snapshot lab = some "INACTIVE")

/-- evaluate_rules_on_change from app.py: snapshot the phase and both
input maps under the lock, then evaluate the per-phase rule (idle: inert;
scene_1: both pushbuttons ACTIVE simultaneously → scene_2; scene_2: strict
rising edge on the changed toggle-1 input → end_game; end_game: strict
rising edge on the changed toggle-2 input → stop the timer). -/
def evaluate_rules_on_change (st : St) (now : ℚ) (changed_label : String) : St × List Act :=
  let gs := st.game_state
  let snapshot := st.current_inputs
  let prev_snapshot := st.previous_inputs
  let pb1 := get_label_by_role "pb1"
  let pb2 := get_label_by_role "pb2"
  let t1 := get_label_by_role "t1"
  let t2 := get_label_by_role "t2"
  let pre : List Act := [Act.acquire, Act.release]
  if gs = "idle" then (st, pre)
  else if gs = "scene_1" then
    if is_active snapshot pb1 && is_active snapshot pb2 then
      let r := set_game_state st now "scene_2" "pb1+pb2_overlap"
      (r.1, pre ++ r.2)
    else (st, pre)
  else if gs = "scene_2" then
    if decide (some changed_label = t1) && was_inactive prev_snapshot t1
        && is_active snapshot t1 then
      let r := set_game_state st now "end_game" "toggle_1_edge"
      (r.1, pre ++ r.2)
    else (st, pre)
  else if gs = "end_game" then
    if decide (some changed_label = t2) && was_inactive prev_snapshot t2
        && is_active snapshot t2 then
      let r := stop_timer st now "toggle_2_edge_stop_timer"
      (r.1, pre ++ r.2)
    else (st, pre)
  else (st, pre)

/-- api_relay_toggle from app.py (the manual relay toggle endpoint):
unknown relay names are rejected without mutation; otherwise flip the
recorded state under the lock, then write the hardware and publish a relay
event after releasing the lock. -/
def api_relay_toggle (st : St) (name : String) : St × List Act :=
  if name ∈ relayNames then
    let cur := (aget st.current_relays name).getD false
    let new := !cur
    let st2 : St := { st with current_relays := aset st.current_relays name new }
    (st2, [Act.acquire, Act.release, Act.relayWrite name new,
           Act.pub (Ev.relay name new "admin_toggle")])
  else (st, [])

/-- Broadcaster queue put: queue.Queue(maxsize=200).put_nowait with
`except queue.Full: pass` — append when below capacity, else drop the
offered element and leave the queue unchanged. -/
def qput {α : Type} (q : List α) (e : α) : List α :=
  if q.length < 200 then q ++ [e] else q

/-- Broadcaster.publish from app.py: offer the event to every subscriber
queue independently. -/
def publish {α : Type} (clients : List (List α)) (e : α) : List (List α) :=
  clients.map (fun q => qput q e)

/-- Sequential composition of a list of set_game_state calls
(now, new_state, reason), threading the state. -/
def run_calls : St → List (ℚ × String × String) → St
  | st, [] => st
  | st, c :: rest => run_calls (set_game_state st c.1 c.2.1 c.2.2).1 rest

/-- Number of calls in a set_game_state sequence at which the timer flips
from not-running to running. -/
def timerStartCount : St → List (ℚ × String × String) → Nat
  | _, [] => 0
  | st, c :: rest =>
      let st2 := (set_game_state st c.1 c.2.1 c.2.2).1
      (if st.timer_running = false ∧ st2.timer_running = true then 1 else 0)
        + timerStartCount st2 rest

/-- A concrete boot-time state: idle, timer zeroed, all inputs INACTIVE,
all relays off. -/
def bootSt : St :=
  { game_state := "idle",
    current_inputs := [("pushbutton 1", "INACTIVE"), ("pushbutton 2", "INACTIVE"),
      ("toggle 1", "INACTIVE"), ("toggle 2", "INACTIVE"), ("reed switch", "INACTIVE")],
    previous_inputs := [("pushbutton 1", "INACTIVE"), ("pushbutton 2", "INACTIVE"),
      ("toggle 1", "INACTIVE"), ("toggle 2", "INACTIVE"), ("reed switch", "INACTIVE")],
    timer_running := false, timer_started_at := none, timer_elapsed_base := 0,
    current_relays := [("relay_1", false), ("relay_2", false), ("relay_3", false),
      ("relay_4", false)] }

/-- A concrete mid-game state: scene_2 with the timer running since t = 10. -/
def runningSt : St :=
  { game_state := "scene_2",
    current_inputs := [("pushbutton 1", "ACTIVE"), ("pushbutton 2", "ACTIVE"),
      ("toggle 1", "INACTIVE"), ("toggle 2", "INACTIVE"), ("reed switch", "INACTIVE")],
    previous_inputs := [("pushbutton 1", "INACTIVE"), ("pushbutton 2", "ACTIVE"),
      ("toggle 1", "INACTIVE"), ("toggle 2", "INACTIVE"), ("reed switch", "INACTIVE")],
    timer_running := true, timer_started_at := some 10, timer_elapsed_base := 0,
    current_relays := [("relay_1", true), ("relay_2", true), ("relay_3", false),
      ("relay_4", true)] }

/-- A concrete scene_1 state in which both pushbuttons read ACTIVE. -/
def scene1St : St :=
  { game_state := "scene_1",
    current_inputs := [("pushbutton 1", "ACTIVE"), ("pushbutton 2", "ACTIVE"),
      ("toggle 1", "INACTIVE"), ("toggle 2", "INACTIVE"), ("reed switch", "INACTIVE")],
    previous_inputs := [("pushbutton 1", "ACTIVE"), ("pushbutton 2", "INACTIVE"),
      ("toggle 1", "INACTIVE"), ("toggle 2", "INACTIVE"), ("reed switch", "INACTIVE")],
    timer_running := true, timer_started_at := some 2, timer_elapsed_base := 0,
    current_relays := [("relay_1", true), ("relay_2", false), ("relay_3", true),
      ("relay_4", false)] }

/-- A concrete scene_2 state in which toggle 1 has just risen
INACTIVE → ACTIVE. -/
def scene2St : St :=
  { game_state := "scene_2",
    current_inputs := [("pushbutton 1", "ACTIVE"), ("pushbutton 2", "ACTIVE"),
      ("toggle 1", "ACTIVE"), ("toggle 2", "INACTIVE"), ("reed switch", "INACTIVE")],
    previous_inputs := [("pushbutton 1", "ACTIVE"), ("pushbutton 2", "ACTIVE"),
      ("toggle 1", "INACTIVE"), ("toggle 2", "INACTIVE"), ("reed switch", "INACTIVE")],
    timer_running := true, timer_started_at := some 2, timer_elapsed_base := 0,
    current_relays := [("relay_1", true), ("relay_2", true), ("relay_3", false),
      ("relay_4", true)] }

/-- Writing a key into an association list makes that key read back the
written value. -/
theorem aget_aset_self {α : Type} (m : List (String × α)) (k : String) (v : α) :
    aget (aset m k v) k = some v := by
  induction m with
  | nil => simp [aset, aget]
  | cons hd tl ih =>
      obtain ⟨k2, w⟩ := hd
      by_cases h : k2 = k <;> simp [aset, aget, h, ih]

/-- The pb1 role resolves to the "pushbutton 1" input. -/
theorem glr_pb1 : get_label_by_role "pb1" = some "pushbutton 1" := rfl

/-- The pb2 role resolves to the "pushbutton 2" input. -/
theorem glr_pb2 : get_label_by_role "pb2" = some "pushbutton 2" := rfl

/-- The t1 role resolves to the "toggle 1" input. -/
theorem glr_t1 : get_label_by_role "t1" = some "toggle 1" := rfl

/-- The t2 role resolves to the "toggle 2" input. -/
theorem glr_t2 : get_label_by_role "t2" = some "toggle 2" := rfl

/-- Entering scene_1 leaves the timer fields exactly as the guarded
scene1_timer_step computes them (relay application touches no timer
field). -/
theorem sgs_scene1_timer (st : St) (now : ℚ) (r : String) :
    (set_game_state st now "scene_1" r).1.timer_running =
        (scene1_timer_step { st with game_state := "scene_1" } now).timer_running ∧
    (set_game_state st now "scene_1" r).1.timer_started_at =
        (scene1_timer_step { st with game_state := "scene_1" } now).timer_started_at ∧
    (set_game_state st now "scene_1" r).1.timer_elapsed_base =
        (scene1_timer_step { st with game_state := "scene_1" } now).timer_elapsed_base :=
  ⟨rfl, rfl, rfl⟩

/-- Entering scene_2 sets the phase to scene_2. -/
theorem sgs_scene2_gs (st : St) (now : ℚ) (r : String) :
    (set_game_state st now "scene_2" r).1.game_state = "scene_2" := rfl

/-- Entering end_game sets the phase to end_game. -/
theorem sgs_endgame_gs (st : St) (now : ℚ) (r : String) :
    (set_game_state st now "end_game" r).1.game_state = "end_game" := rfl

/-- The scene_1 timer guard fires on a fresh timer. -/
theorem scene1_timer_step_start (st : St) (now : ℚ)
    (h1 : st.timer_running = false) (h2 : st.timer_started_at = none)
    (h3 : st.timer_elapsed_base = 0) :
    scene1_timer_step st now =
      { st with timer_started_at := some now, timer_running := true } := by
  simp [scene1_timer_step, h1, h2, h3]

/-- The scene_1 timer guard is a no-op when any of its three conditions
fails. -/
theorem scene1_timer_step_skip (st : St) (now : ℚ)
    (h : ¬(st.timer_running = false ∧ st.timer_started_at = none ∧
        st.timer_elapsed_base = 0)) :
    scene1_timer_step st now = st := by
  simp only [scene1_timer_step, if_neg h]

/-- Any set_game_state call other than into idle leaves a running timer
running, with its start timestamp and accumulated base unchanged. -/
theorem sgs_keeps_running_timer (st : St) (now : ℚ) (ns r : String)
    (hns : ns ≠ "idle") (hrun : st.timer_running = true) :
    (set_game_state st now ns r).1.timer_running = true ∧
    (set_game_state st now ns r).1.timer_started_at = st.timer_started_at ∧
    (set_game_state st now ns r).1.timer_elapsed_base = st.timer_elapsed_base := by
  by_cases h1 : ns = "scene_1"
  · subst h1
    have hg : ¬({ st with game_state := "scene_1" }.timer_running = false ∧
        { st with game_state := "scene_1" }.timer_started_at = none ∧
        { st with game_state := "scene_1" }.timer_elapsed_base = 0) := by
      simp [hrun]
    have e := scene1_timer_step_skip { st with game_state := "scene_1" } now hg
    obtain ⟨e1, e2, e3⟩ := sgs_scene1_timer st now r
    exact ⟨by rw [e1, e]; exact hrun, by rw [e2, e], by rw [e3, e]⟩
  · by_cases h2 : ns = "scene_2"
    · subst h2; exact ⟨hrun, rfl, rfl⟩
    · by_cases h3 : ns = "end_game"
      · subst h3; exact ⟨hrun, rfl, rfl⟩
      · have hv : ns ∉ VALID_GAME_STATES := by
          simp [VALID_GAME_STATES, hns, h1, h2, h3]
        simp [set_game_state, hv, hrun]

/-- While the timer is running, a sequence of set_game_state calls that
never enters idle starts the timer zero times. -/
theorem timerStartCount_zero_of_running (calls : List (ℚ × String × String)) :
    ∀ st : St, (∀ c ∈ calls, c.2.1 ≠ "idle") → st.timer_running = true →
      timerStartCount st calls = 0 := by
  induction calls with
  | nil => intro st _ _; rfl
  | cons c rest ih =>
      intro st hni hrun
      have hkeep := sgs_keeps_running_timer st c.1 c.2.1 c.2.2 (hni c (by simp)) hrun
      simp only [timerStartCount, hrun]
      rw [if_neg (by simp [hrun]), Nat.zero_add]
      exact ih _ (fun d hd => hni d (by simp [hd])) hkeep.1

/-- A sequence of set_game_state calls that never enters idle starts the
timer at most once. -/
theorem timerStartCount_le_one (calls : List (ℚ × String × String)) :
    ∀ st : St, (∀ c ∈ calls, c.2.1 ≠ "idle") → timerStartCount st calls ≤ 1 := by
  induction calls with
  | nil => intro st _; simp [timerStartCount]
  | cons c rest ih =>
      intro st hni
      have hni2 : ∀ d ∈ rest, d.2.1 ≠ "idle" := fun d hd => hni d (by simp [hd])
      cases hrun : st.timer_running with
      | true =>
          have h0 := timerStartCount_zero_of_running (c :: rest) st hni hrun
          omega
      | false =>
          cases hrun2 : (set_game_state st c.1 c.2.1 c.2.2).1.timer_running with
          | true =>
              have h0 := timerStartCount_zero_of_running rest
                (set_game_state st c.1 c.2.1 c.2.2).1 hni2 hrun2
              simp only [timerStartCount]
              rw [if_pos ⟨hrun, hrun2⟩]
              omega
          | false =>
              have hr := ih (set_game_state st c.1 c.2.1 c.2.2).1 hni2
              simp only [timerStartCount]
              rw [if_neg (by simp [hrun2])]
              omega

/-- Claim C1, counterexample: at a full subscriber queue (200 pending
events, all equal to 0), publishing a new event 1 leaves the queue
unchanged — the newly published (newest) event is dropped and the oldest
pending event is kept, contradicting the claim that the oldest
undeliverable event is dropped and the newest kept. -/
theorem C1_counterexample :
    publish [List.replicate 200 (0 : Nat)] 1 = [List.replicate 200 (0 : Nat)] ∧
    (1 : Nat) ∉ (publish [List.replicate 200 (0 : Nat)] 1).headD [] ∧
    (0 : Nat) ∈ (publish [List.replicate 200 (0 : Nat)] 1).headD [] :=
  ⟨rfl, by decide, by decide⟩

/-- Claim C1, amended: when a subscriber's bounded queue is full at publish
time, the publish operation silently drops the event being published (the
newest) for that subscriber only, keeping the oldest-pending events; every
subscriber queue is updated independently of the others. -/
theorem C1_drop_newest {α : Type} (clients : List (List α)) (e : α) :
    publish clients e =
      clients.map (fun q => if q.length < 200 then q ++ [e] else q) ∧
    ∀ q : List α, 200 ≤ q.length → qput q e = q := by
  constructor
  · rfl
  · intro q h
    have hnl : ¬ q.length < 200 := by omega
    simp [qput, hnl]

/-- Witness for C1_drop_newest at a concrete full queue. -/
theorem C1_drop_newest_witness :
    qput (List.replicate 200 (0 : Nat)) 1 = List.replicate 200 (0 : Nat) :=
  (C1_drop_newest [] (1 : Nat)).2 (List.replicate 200 0) (by simp)

/-- Claim C2: entering scene_1 starts the timer (running := true,
started_at := now, base untouched) exactly when running is false,
started_at is None and elapsed_base is 0; otherwise the three timer fields
are left unchanged; and over any sequence of set_game_state calls that
never enters idle, the timer starts at most once. -/
theorem C2_timer_start_once (st : St) (now : ℚ) (reason : String) :
    (st.timer_running = false ∧ st.timer_started_at = none ∧
        st.timer_elapsed_base = 0 →
      (set_game_state st now "scene_1" reason).1.timer_running = true ∧
      (set_game_state st now "scene_1" reason).1.timer_started_at = some now ∧
      (set_game_state st now "scene_1" reason).1.timer_elapsed_base =
        st.timer_elapsed_base) ∧
    (¬(st.timer_running = false ∧ st.timer_started_at = none ∧
        st.timer_elapsed_base = 0) →
      (set_game_state st now "scene_1" reason).1.timer_running = st.timer_running ∧
      (set_game_state st now "scene_1" reason).1.timer_started_at =
        st.timer_started_at ∧
      (set_game_state st now "scene_1" reason).1.timer_elapsed_base =
        st.timer_elapsed_base) ∧
    (∀ calls : List (ℚ × String × String), (∀ c ∈ calls, c.2.1 ≠ "idle") →
      timerStartCount st calls ≤ 1) := by
  obtain ⟨e1, e2, e3⟩ := sgs_scene1_timer st now reason
  refine ⟨fun h => ?_, fun h => ?_, fun calls hni => timerStartCount_le_one calls st hni⟩
  · obtain ⟨h1, h2, h3⟩ := h
    have e := scene1_timer_step_start { st with game_state := "scene_1" } now h1 h2 h3
    exact ⟨by rw [e1, e], by rw [e2, e], by rw [e3, e]⟩
  · have hg : ¬({ st with game_state := "scene_1" }.timer_running = false ∧
        { st with game_state := "scene_1" }.timer_started_at = none ∧
        { st with game_state := "scene_1" }.timer_elapsed_base = 0) := h
    have e := scene1_timer_step_skip { st with game_state := "scene_1" } now hg
    exact ⟨by rw [e1, e], by rw [e2, e], by rw [e3, e]⟩

/-- Witness for C2_timer_start_once: from the boot state the timer starts
at t = 3; from a running state a re-entry into scene_1 changes nothing;
and the concrete call sequence scene_1, scene_2, scene_1 starts the timer
at most once. -/
theorem C2_timer_start_once_witness :
    ((set_game_state bootSt 3 "scene_1" "go").1.timer_running = true ∧
     (set_game_state bootSt 3 "scene_1" "go").1.timer_started_at = some 3 ∧
     (set_game_state bootSt 3 "scene_1" "go").1.timer_elapsed_base =
       bootSt.timer_elapsed_base) ∧
    ((set_game_state runningSt 25 "scene_1" "again").1.timer_running =
       runningSt.timer_running ∧
     (set_game_state runningSt 25 "scene_1" "again").1.timer_started_at =
       runningSt.timer_started_at ∧
     (set_game_state runningSt 25 "scene_1" "again").1.timer_elapsed_base =
       runningSt.timer_elapsed_base) ∧
    timerStartCount bootSt [(3, "scene_1", "a"), (4, "scene_2", "b"), (5, "scene_1", "c")] ≤ 1 :=
  ⟨(C2_timer_start_once bootSt 3 "go").1 (by decide),
   (C2_timer_start_once runningSt 25 "again").2.1 (by decide),
   (C2_timer_start_once bootSt 3 "go").2.2
     [(3, "scene_1", "a"), (4, "scene_2", "b"), (5, "scene_1", "c")] (by decide)⟩

/-- Claim C3, counterexample: set_game_state into idle from a concrete
running state publishes the entered_idle relays event, performs the four
relay hardware writes, and issues the panic audio-cue publish all while
holding the exclusivity lock — refuting both the release-before-publish
and the no-I/O-under-the-lock parts of the claim. -/
theorem C3_counterexample :
    Act.pub (Ev.relays "idle"
        [("relay_1", false), ("relay_2", false), ("relay_3", false), ("relay_4", false)]
        "entered_idle")
      ∈ insideLock (set_game_state runningSt 25 "idle" "admin_override").2 ∧
    Act.audio "panic" ""
      ∈ insideLock (set_game_state runningSt 25 "idle" "admin_override").2 ∧
    Act.relayWrite "relay_1" false
      ∈ insideLock (set_game_state runningSt 25 "idle" "admin_override").2 := by
  decide

/-- Claim C3, amended: stop_timer, set_input_state and the manual relay
toggle perform no publish and no I/O while holding the lock; set_game_state
performs its audio-cue publish while holding the lock for every valid
phase, and on entering idle additionally performs the four relay writes and
publishes the entered_idle relays event under the lock; nothing else (in
particular none of its game_state, timer, full_state or state-reason relays
events) happens under the lock. -/
theorem C3_lock_discipline :
    (∀ (st : St) (now : ℚ) (r : String), insideLock (stop_timer st now r).2 = []) ∧
    (∀ (st : St) (l : String) (a : Bool), insideLock (set_input_state st l a).2 = []) ∧
    (∀ (st : St) (n : String), insideLock (api_relay_toggle st n).2 = []) ∧
    (∀ (st : St) (now : ℚ) (ns r : String),
      insideLock (set_game_state st now ns r).2 =
        if ns = "idle" then
          [Act.audio "panic" "",
           Act.relayWrite "relay_1" false, Act.relayWrite "relay_2" false,
           Act.relayWrite "relay_3" false, Act.relayWrite "relay_4" false,
           Act.pub (Ev.relays "idle"
             [("relay_1", false), ("relay_2", false), ("relay_3", false), ("relay_4", false)]
             "entered_idle")]
        else if ns = "scene_1" then [Act.audio "bg_start" "state1.mp3"]
        else if ns = "scene_2" then [Act.audio "bg_switch" "state2.mp3"]
        else if ns = "end_game" then [Act.audio "bg_switch" "state3.mp3"]
        else []) := by
  refine ⟨fun st now r => ?_, fun st l a => rfl, fun st n => ?_, fun st now ns r => ?_⟩
  · cases h : st.timer_running <;> simp [stop_timer, h, insideLock, insideLockAux]
  · by_cases h : n ∈ relayNames <;> simp [api_relay_toggle, h, insideLock, insideLockAux]
  · by_cases h1 : ns = "idle"
    · subst h1; rfl
    · by_cases h2 : ns = "scene_1"
      · subst h2; rfl
      · by_cases h3 : ns = "scene_2"
        · subst h3; rfl
        · by_cases h4 : ns = "end_game"
          · subst h4; rfl
          · have hv : ns ∉ VALID_GAME_STATES := by
              simp [VALID_GAME_STATES, h1, h2, h3, h4]
            simp [set_game_state, hv, h1, h2, h3, h4, insideLock, insideLockAux]

/-- Claim C4: set_game_state into idle resets the timer to running = false,
started_at = None, elapsed_base = 0, for every prior timer state. -/
theorem C4_idle_resets_timer (st : St) (now : ℚ) (reason : String) :
    (set_game_state st now "idle" reason).1.timer_running = false ∧
    (set_game_state st now "idle" reason).1.timer_started_at = none ∧
    (set_game_state st now "idle" reason).1.timer_elapsed_base = 0 :=
  ⟨rfl, rfl, rfl⟩

/-- Claim C5: while the phase is scene_1, after any input change (whatever
label changed and in either order of pressing) the rule evaluation moves
the phase to scene_2 whenever the current snapshot shows both the pb1-role
input ("pushbutton 1") and the pb2-role input ("pushbutton 2") ACTIVE
simultaneously; when they are not both ACTIVE (in particular when only one
is), the state is unchanged and nothing is published. -/
theorem C5_scene1_both_buttons (st : St) (now : ℚ) (changed_label : String)
    (hph : st.game_state = "scene_1") :
    (aget st.current_inputs "pushbutton 1" = some "ACTIVE" ∧
     aget st.current_inputs "pushbutton 2" = some "ACTIVE" →
      (evaluate_rules_on_change st now changed_label).1.game_state = "scene_2") ∧
    (¬(aget st.current_inputs "pushbutton 1" = some "ACTIVE" ∧
       aget st.current_inputs "pushbutton 2" = some "ACTIVE") →
      (evaluate_rules_on_change st now changed_label).1 = st ∧
      eventsOf (evaluate_rules_on_change st now changed_label).2 = []) := by
  constructor
  · rintro ⟨h1, h2⟩
    simp only [evaluate_rules_on_change, hph, glr_pb1, glr_pb2, is_active,
      h1, h2]
    simp only [decide_True, Bool.and_self, if_true]
    simp [sgs_scene2_gs]
  · intro hno
    have hcond : (is_active st.current_inputs (get_label_by_role "pb1") &&
        is_active st.current_inputs (get_label_by_role "pb2")) = false := by
      rw [glr_pb1, glr_pb2]
      by_cases h1 : aget st.current_inputs "pushbutton 1" = some "ACTIVE"
      · by_cases h2 : aget st.current_inputs "pushbutton 2" = some "ACTIVE"
        · exact absurd ⟨h1, h2⟩ hno
        · simp [is_active, h2]
      · simp [is_active, h1]
    constructor <;> simp [evaluate_rules_on_change, hph, hcond, eventsOf]

/-- Witness for C5_scene1_both_buttons: at a concrete scene_1 state with
both pushbuttons ACTIVE, a change on "pushbutton 2" moves the phase to
scene_2. -/
theorem C5_scene1_both_buttons_witness :
    scene1St.game_state = "scene_1" ∧
    (evaluate_rules_on_change scene1St 4 "pushbutton 2").1.game_state = "scene_2" :=
  ⟨by decide,
   (C5_scene1_both_buttons scene1St 4 "pushbutton 2" (by decide)).1
     ⟨by decide, by decide⟩⟩

/-- Claim C6: while the phase is scene_2, the rule evaluation moves the
phase to end_game exactly when the changed input is the t1-role input
("toggle 1") and its previous snapshot reads INACTIVE and its current
snapshot reads ACTIVE (a strict rising edge on that input); in every other
case (including a non-rising change to ACTIVE or a change on another
input) the state is unchanged and nothing is published. -/
theorem C6_scene2_toggle1_edge (st : St) (now : ℚ) (changed_label : String)
    (hph : st.game_state = "scene_2") :
    (changed_label = "toggle 1" ∧
     aget st.previous_inputs "toggle 1" = some "INACTIVE" ∧
     aget st.current_inputs "toggle 1" = some "ACTIVE" →
      (evaluate_rules_on_change st now changed_label).1.game_state = "end_game") ∧
    (¬(changed_label = "toggle 1" ∧
       aget st.previous_inputs "toggle 1" = some "INACTIVE" ∧
       aget st.current_inputs "toggle 1" = some "ACTIVE") →
      (evaluate_rules_on_change st now changed_label).1 = st ∧
      eventsOf (evaluate_rules_on_change st now changed_label).2 = []) := by
  constructor
  · rintro ⟨h1, h2, h3⟩
    simp only [evaluate_rules_on_change, hph, glr_t1, was_inactive, is_active,
      h1, h2, h3]
    simp only [decide_True, Bool.and_self, if_true]
    simp [sgs_endgame_gs]
  · intro hno
    have hcond : (decide (some changed_label = get_label_by_role "t1") &&
        was_inactive st.previous_inputs (get_label_by_role "t1") &&
        is_active st.current_inputs (get_label_by_role "t1")) = false := by
      rw [glr_t1]
      by_cases h1 : changed_label = "toggle 1"
      · by_cases h2 : aget st.previous_inputs "toggle 1" = some "INACTIVE"
        · by_cases h3 : aget st.current_inputs "toggle 1" = some "ACTIVE"
          · exact absurd ⟨h1, h2, h3⟩ hno
          · simp [is_active, h3]
        · simp [was_inactive, h2]
      · simp [h1]
    constructor <;> simp [evaluate_rules_on_change, hph, hcond, eventsOf]

/-- Witness for C6_scene2_toggle1_edge: at a concrete scene_2 state where
toggle 1 just rose INACTIVE → ACTIVE, the phase moves to end_game. -/
theorem C6_scene2_toggle1_edge_witness :
    scene2St.game_state = "scene_2" ∧
    (evaluate_rules_on_change scene2St 6 "toggle 1").1.game_state = "end_game" :=
  ⟨by decide,
   (C6_scene2_toggle1_edge scene2St 6 "toggle 1" (by decide)).1
     ⟨rfl, by decide, by decide⟩⟩

/-- Claim C7: for every valid phase, the events set_game_state publishes
for the transition are, in order, relays events (one, or two for idle)
followed by exactly the game_state event, the timer event and the
full_state snapshot, so the three appear in that fixed order after the
relay-pattern application. -/
theorem C7_event_order (st : St) (now : ℚ) (ns reason : String)
    (h : ns ∈ VALID_GAME_STATES) :
    (eventsOf (set_game_state st now ns reason).2).map evTag =
      if ns = "idle" then ["relays", "relays", "game_state", "timer", "full_state"]
      else ["relays", "game_state", "timer", "full_state"] := by
  fin_cases h <;> rfl

/-- Witness for C7_event_order at the boot state entering scene_1. -/
theorem C7_event_order_witness :
    "scene_1" ∈ VALID_GAME_STATES ∧
    (eventsOf (set_game_state bootSt 3 "scene_1" "go").2).map evTag =
      ["relays", "game_state", "timer", "full_state"] :=
  ⟨by decide, C7_event_order bootSt 3 "scene_1" "go" (by decide)⟩

/-- Claim C8: for every label that already has a recorded current value
(i.e. after its initial reading), set_input_state moves that old current
value into previous[label] and writes the new value into current[label],
so the edge predicate was_inactive && is_active computed on the updated
snapshots equals "the old value was INACTIVE and the new value is
ACTIVE". -/
theorem C8_snapshot_update (st : St) (lab v : String) (act : Bool)
    (h : aget st.current_inputs lab = some v) :
    aget (set_input_state st lab act).1.previous_inputs lab = some v ∧
    aget (set_input_state st lab act).1.current_inputs lab =
      some (if act then "ACTIVE" else "INACTIVE") ∧
    (was_inactive (set_input_state st lab act).1.previous_inputs (some lab) &&
     is_active (set_input_state st lab act).1.current_inputs (some lab)) =
      (decide (v = "INACTIVE") && act) := by
  refine ⟨?_, ?_, ?_⟩
  · simp [set_input_state, h, aget_aset_self]
  · simp [set_input_state, aget_aset_self]
  · cases act <;>
      simp [set_input_state, was_inactive, is_active, h, aget_aset_self]

/-- Witness for C8_snapshot_update: at the boot state, an ACTIVE edge on
"toggle 1" records previous INACTIVE, current ACTIVE, and a true edge
predicate. -/
theorem C8_snapshot_update_witness :
    aget bootSt.current_inputs "toggle 1" = some "INACTIVE" ∧
    (aget (set_input_state bootSt "toggle 1" true).1.previous_inputs "toggle 1" =
       some "INACTIVE" ∧
     aget (set_input_state bootSt "toggle 1" true).1.current_inputs "toggle 1" =
       some (if true then "ACTIVE" else "INACTIVE") ∧
     (was_inactive (set_input_state bootSt "toggle 1" true).1.previous_inputs
         (some "toggle 1") &&
      is_active (set_input_state bootSt "toggle 1" true).1.current_inputs
         (some "toggle 1")) = (decide ("INACTIVE" = "INACTIVE") && true)) :=
  ⟨by decide, C8_snapshot_update bootSt "toggle 1" "INACTIVE" true (by decide)⟩

/-- Claim C9: the elapsed-time read is total: whenever running is false or
started_at is None it returns elapsed_base, and the subtraction
now - started_at is only performed in the remaining case, where started_at
is some t, giving elapsed_base + (now - t); so the read succeeds even when
the started_at-iff-running invariant is violated. -/
theorem C9_elapsed_total (st : St) (now : ℚ) :
    (st.timer_running = false ∨ st.timer_started_at = none →
      get_timer_elapsed st now = st.timer_elapsed_base) ∧
    (∀ t : ℚ, st.timer_started_at = some t → st.timer_running = true →
      get_timer_elapsed st now = st.timer_elapsed_base + (now - t)) := by
  constructor
  · rintro (h | h) <;> simp [get_timer_elapsed, h]
  · intro t ht hr
    simp [get_timer_elapsed, ht, hr]

/-- Witness for C9_elapsed_total: the boot state (stopped, no timestamp)
reads its base, and the running state started at t = 10 reads
base + (25 - 10) at now = 25; the invariant-violating state with
running = true but started_at = None still reads its base. -/
theorem C9_elapsed_total_witness :
    get_timer_elapsed bootSt 5 = bootSt.timer_elapsed_base ∧
    get_timer_elapsed runningSt 25 = runningSt.timer_elapsed_base + (25 - 10) :=
  ⟨(C9_elapsed_total bootSt 5).1 (Or.inl (by decide)),
   (C9_elapsed_total runningSt 25).2 10 (by decide) (by decide)⟩

/-- Claim C10: set_game_state into idle publishes two relays events — one
with reason entered_idle (emitted while the lock is held, together with
the panic audio cue and the four relay writes) and one with the
state-prefixed reason after the lock is released — so observers receive
the relays event twice per idle entry. -/
theorem C10_idle_double_relays (st : St) (now : ℚ) (reason : String) :
    (eventsOf (set_game_state st now "idle" reason).2).filter
        (fun e => decide (evTag e = "relays")) =
      [Ev.relays "idle"
         [("relay_1", false), ("relay_2", false), ("relay_3", false), ("relay_4", false)]
         "entered_idle",
       Ev.relays "idle"
         [("relay_1", false), ("relay_2", false), ("relay_3", false), ("relay_4", false)]
         ("state:" ++ reason)] ∧
    insideLock (set_game_state st now "idle" reason).2 =
      [Act.audio "panic" "",
       Act.relayWrite "relay_1" false, Act.relayWrite "relay_2" false,
       Act.relayWrite "relay_3" false, Act.relayWrite "relay_4" false,
       Act.pub (Ev.relays "idle"
         [("relay_1", false), ("relay_2", false), ("relay_3", false), ("relay_4", false)]
         "entered_idle")] :=
  ⟨rfl, rfl⟩
